import Mathlib

/-
Verification of src/colormap_to_pal.py (function export_cmap_as_pal_txt).

The Python function samples a registered matplotlib colormap at nlevels
evenly spaced positions, pairs each sample with a physical level obtained
from np.linspace(min, max, nlevels, retstep=True), and writes a PAL-format
text file.  We embed the function shallowly: real arithmetic is idealised
over the rationals (np.linspace is exact in this idealisation: the forced
assignment y[-1] = stop that numpy performs coincides with
start + (num-1)*step over the rationals), the colormap registry is an
explicit lookup function, the written file is the pair (path, line list),
and the Python exceptions the code can raise are an explicit error type.
-/

namespace ColormapToPal

/-- Exceptions the Python code can raise before the output file is opened:
ValueError from np.linspace when the sample count is negative, KeyError
from mpl.colormaps[colormap] when the name is not registered, and
ZeroDivisionError from i/(nlevels-1) when nlevels = 1. -/
inductive PyError where
  | valueError
  | keyError
  | zeroDivisionError
  deriving DecidableEq

/-- One line of the PAL output file, carrying its semantic payload.
The step line carries an Option because np.linspace returns NaN as the
step when the sample count is 0 or 1 (modelled as none). -/
inductive PalLine where
  | product (field : String)
  | units (u : String)
  | scale
  | step (s : Option ℚ)
  | blank
  | color (level : ℚ) (r g b : ℤ)
  | unique
  deriving DecidableEq

instance {e a : Type} [DecidableEq e] [DecidableEq a] : DecidableEq (Except e a) := fun x y =>
  match x, y with
  | Except.error u, Except.error v =>
    if h : u = v then isTrue (by rw [h]) else isFalse (fun hc => h (by injection hc))
  | Except.ok u, Except.ok v =>
    if h : u = v then isTrue (by rw [h]) else isFalse (fun hc => h (by injection hc))
  | Except.error _, Except.ok _ => isFalse (fun hc => Except.noConfusion hc)
  | Except.ok _, Except.error _ => isFalse (fun hc => Except.noConfusion hc)

/-- The retstep value of np.linspace(start, stop, num, retstep=True):
(stop - start) / (num - 1) when num > 1, and NaN (none) otherwise. -/
def linspaceStep (start stop : ℚ) (num : ℤ) : Option ℚ :=
  if 1 < num then some ((stop - start) / ((num : ℚ) - 1)) else none

/-- The sample list of np.linspace(start, stop, num): num values
start + i * step; for num = 0 the list is empty and for num = 1 it is
[start].  Over the rationals start + (num-1)*step = stop exactly, which
matches numpy's forced endpoint assignment. -/
def linspaceLevels (start stop : ℚ) (num : ℤ) : List ℚ :=
  match linspaceStep start stop num with
  | some st => (List.range num.toNat).map fun i : ℕ => start + (i : ℚ) * st
  | none => (List.range num.toNat).map fun _ : ℕ => start

/-- np.linspace(start, stop, num, retstep=True): raises ValueError when
num < 0, otherwise returns the samples and the step. -/
def linspace (start stop : ℚ) (num : ℤ) : Except PyError (List ℚ × Option ℚ) :=
  if num < 0 then Except.error PyError.valueError
  else Except.ok (linspaceLevels start stop num, linspaceStep start stop num)

/-- Python int() applied to a rational: truncation toward zero. -/
def pyTrunc (q : ℚ) : ℤ :=
  if 0 ≤ q then ⌊q⌋ else ⌈q⌉

/-- A colormap: normalized position to an (r, g, b) triple. -/
abbrev Cmap := ℚ → ℚ × ℚ × ℚ

/-- The registry mpl.colormaps, as an explicit lookup. -/
abbrev Registry := String → Option Cmap

/-- A (level, r, g, b) tuple as appended to rgb_triplets in the source:
rgb = cmap(i/(nlevels-1))[:3], entry (levels[i], int(rgb[0]*255),
int(rgb[1]*255), int(rgb[2]*255)). -/
abbrev Triplet := ℚ × ℤ × ℤ × ℤ

/-- The loop body of the source at index i. -/
def sampleTriplet (cmap : Cmap) (levels : List ℚ) (nlevels : ℤ) (i : ℕ) : Triplet :=
  let t : ℚ := (i : ℚ) / ((nlevels : ℚ) - 1)
  let c := cmap t
  (levels.getD i 0, pyTrunc (c.1 * 255), pyTrunc (c.2.1 * 255), pyTrunc (c.2.2 * 255))

/-- The loop for i in range(nlevels) building rgb_triplets.  When
nlevels = 1 the body runs at i = 0 and i/(nlevels-1) raises
ZeroDivisionError; for any other nlevels the divisor is nonzero or the
loop body never runs. -/
def mkTriplets (cmap : Cmap) (levels : List ℚ) (nlevels : ℤ) :
    Except PyError (List Triplet) :=
  if nlevels = 1 then Except.error PyError.zeroDivisionError
  else Except.ok ((List.range nlevels.toNat).map (sampleTriplet cmap levels nlevels))

/-- Everything the source does before the output file is opened
(lines 26-32): linspace, colormap lookup, and the rgb_triplets loop. -/
def prepare (reg : Registry) (colormap : String) (mn mx : ℚ) (nlevels : ℤ) :
    Except PyError (List Triplet × Option ℚ) :=
  match linspace mn mx nlevels with
  | Except.error e => Except.error e
  | Except.ok (levels, st) =>
    match reg colormap with
    | none => Except.error PyError.keyError
    | some cmap =>
      match mkTriplets cmap levels nlevels with
      | Except.error e => Except.error e
      | Except.ok trips => Except.ok (trips, st)

/-- The output path: './' + colormap + '_' + field + '.pal'. -/
def fileName (colormap field : String) : String :=
  "./" ++ colormap ++ "_" ++ field ++ ".pal"

/-- The lines written to the file (lines 35-48 of the source): the two
header lines, Scale: 100 when field == 'CC' and otherwise the Step line,
a blank line, the triplets in reversed order as Color lines, and the
Unique sentinel line when the unique flag is set. -/
def buildLines (field units : String) (st : Option ℚ) (trips : List Triplet)
    (unique : Bool) : List PalLine :=
  [PalLine.product field, PalLine.units units]
    ++ (if field = "CC" then [PalLine.scale] else [PalLine.step st])
    ++ [PalLine.blank]
    ++ trips.reverse.map (fun t => PalLine.color t.1 t.2.1 t.2.2.1 t.2.2.2)
    ++ (if unique then [PalLine.unique] else [])

/-- The whole function export_cmap_as_pal_txt: on success, the file it
writes, as (path, lines). -/
def export_cmap_as_pal_txt (reg : Registry) (colormap field units : String)
    (mn mx : ℚ) (nlevels : ℤ) (unique : Bool) :
    Except PyError (String × List PalLine) :=
  match prepare reg colormap mn mx nlevels with
  | Except.error e => Except.error e
  | Except.ok (trips, st) =>
    Except.ok (fileName colormap field, buildLines field units st trips unique)

/-- A file-system event the function can perform. -/
inductive FsEvent where
  | opened (path : String)
  | wrote (path : String) (lines : List PalLine)
  deriving DecidableEq

/-- The function as a trace of file-system events plus an optional raised
exception.  All three failure points (lines 26, 27 and 31 of the source)
precede the open() on line 34, so a failing run performs no event. -/
def exportTrace (reg : Registry) (colormap field units : String)
    (mn mx : ℚ) (nlevels : ℤ) (unique : Bool) : List FsEvent × Option PyError :=
  match prepare reg colormap mn mx nlevels with
  | Except.error e => ([], some e)
  | Except.ok (trips, st) =>
    ([FsEvent.opened (fileName colormap field),
      FsEvent.wrote (fileName colormap field) (buildLines field units st trips unique)],
     none)

/-- Left pad with zeros to width w. -/
def zpad (w : ℕ) (s : String) : String :=
  String.mk (List.replicate (w - s.length) '0') ++ s

/-- Right justify in a field of width w, as printf does. -/
def rjust (w : ℕ) (s : String) : String :=
  String.mk (List.replicate (w - s.length) ' ') ++ s

/-- Python str() on a float that holds the given rational exactly: an
integral value prints with a trailing .0, and otherwise the shortest
finite decimal expansion is printed.  (The fallback branch for a rational
with no short decimal expansion is never reached by the values this
development evaluates.) -/
def pyFloatStr (q : ℚ) : String :=
  if q.den = 1 then toString q.num ++ ".0"
  else
    match (List.range 17).find? (fun k => (q * (10 : ℚ) ^ (k + 1)).den = 1) with
    | some k =>
      let d := k + 1
      let m := (q * (10 : ℚ) ^ d).num
      let sg := if m < 0 then "-" else ""
      let a := m.natAbs
      sg ++ toString (a / 10 ^ d) ++ "." ++ zpad d (toString (a % 10 ^ d))
    | none => toString q

/-- str(step) where step may be NaN (nlevels 0 or 1). -/
def stepStr : Option ℚ → String
  | none => "nan"
  | some q => pyFloatStr q

/-- Printf %5.2f: two decimal places, right justified to width at least 5.
Rounding ties do not occur at the values this development evaluates. -/
def fmt52 (q : ℚ) : String :=
  let m := round (q * 100)
  let sg := if m < 0 then "-" else ""
  let a := m.natAbs
  rjust 5 (sg ++ toString (a / 100) ++ "." ++ zpad 2 (toString (a % 100)))

/-- Printf %4d. -/
def fmt4 (n : ℤ) : String :=
  rjust 4 (toString n)

/-- The text of one output line, following the write() calls of the
source (without the trailing newline). -/
def render : PalLine → String
  | PalLine.product f => "Product: " ++ f
  | PalLine.units u => "Units:   " ++ u
  | PalLine.scale => "Scale: 100"
  | PalLine.step s => "Step: " ++ stepStr s
  | PalLine.blank => ""
  | PalLine.color l r g b =>
      "Color: " ++ fmt52 l ++ "  " ++ fmt4 r ++ " " ++ fmt4 g ++ " " ++ fmt4 b ++ " 255"
  | PalLine.unique => "Unique: 800 \"RF\"    119   0  125"

/-- The levels carried by the Color lines, in output order. -/
def colorLevels (lines : List PalLine) : List ℚ :=
  lines.filterMap fun l =>
    match l with
    | PalLine.color lv _ _ _ => some lv
    | _ => none

/-- Whether a line is the Scale header line. -/
def isScale : PalLine → Bool
  | PalLine.scale => true
  | _ => false

/-- Whether a line is a Step header line. -/
def isStepLine : PalLine → Bool
  | PalLine.step _ => true
  | _ => false

/-- Whether a line is the Unique sentinel line. -/
def isUniqueLine : PalLine → Bool
  | PalLine.unique => true
  | _ => false

/-- A registry holding the single gradient testmap, the linear grayscale
colormap t maps to (t, t, t), used by the concrete examples. -/
def testRegistry : Registry := fun name =>
  if name = "testmap" then some (fun t => (t, t, t)) else none

/-! Helper lemmas. -/

theorem getD_range_map {α : Type} (f : ℕ → α) (d : α) (n i : ℕ) (h : i < n) :
    ((List.range n).map f).getD i d = f i := by
  simp [List.getD_eq_getElem?_getD, List.getElem?_map, List.getElem?_range, h]

theorem linspaceStep_of_two_le (mn mx : ℚ) (nlevels : ℤ) (hn : 2 ≤ nlevels) :
    linspaceStep mn mx nlevels = some ((mx - mn) / ((nlevels : ℚ) - 1)) := by
  unfold linspaceStep
  rw [if_pos (by omega)]

theorem linspaceLevels_of_two_le (mn mx : ℚ) (nlevels : ℤ) (hn : 2 ≤ nlevels) :
    linspaceLevels mn mx nlevels =
      (List.range nlevels.toNat).map
        (fun i : ℕ => mn + (i : ℚ) * ((mx - mn) / ((nlevels : ℚ) - 1))) := by
  unfold linspaceLevels
  rw [linspaceStep_of_two_le mn mx nlevels hn]

theorem cast_sub_one_pos (nlevels : ℤ) (hn : 2 ≤ nlevels) :
    (0 : ℚ) < (nlevels : ℚ) - 1 := by
  have h2 : (2 : ℚ) ≤ (nlevels : ℚ) := by exact_mod_cast hn
  linarith

theorem toNat_cast_eq (nlevels : ℤ) (hn : 0 ≤ nlevels) :
    ((nlevels.toNat : ℚ)) = (nlevels : ℚ) := by
  rw [← Int.cast_natCast, Int.toNat_of_nonneg hn]

theorem levels_pairwise_lt (mn mx : ℚ) (nlevels : ℤ) (hlt : mn < mx) (hn : 2 ≤ nlevels) :
    (linspaceLevels mn mx nlevels).Pairwise (· < ·) := by
  rw [linspaceLevels_of_two_le mn mx nlevels hn]
  have hstpos : 0 < (mx - mn) / ((nlevels : ℚ) - 1) :=
    div_pos (by linarith) (cast_sub_one_pos nlevels hn)
  refine List.Pairwise.map _ ?_ (List.pairwise_lt_range _)
  intro a b hab
  have hab' : (a : ℚ) < (b : ℚ) := by exact_mod_cast hab
  have := mul_lt_mul_of_pos_right hab' hstpos
  linarith

/-- C1: for min < max and nlevels at least 2, linspace produces exactly
nlevels strictly increasing values, the first is min, the last is max,
and every consecutive difference is step = (max - min) / (nlevels - 1);
over the rationals this holds exactly. -/
theorem levels_spec (mn mx : ℚ) (nlevels : ℤ) (hlt : mn < mx) (hn : 2 ≤ nlevels) :
    (linspaceLevels mn mx nlevels).length = nlevels.toNat ∧
    (linspaceLevels mn mx nlevels).Pairwise (· < ·) ∧
    (linspaceLevels mn mx nlevels).getD 0 0 = mn ∧
    (linspaceLevels mn mx nlevels).getD (nlevels.toNat - 1) 0 = mx ∧
    linspaceStep mn mx nlevels = some ((mx - mn) / ((nlevels : ℚ) - 1)) ∧
    ∀ i : ℕ, i + 1 < nlevels.toNat →
      (linspaceLevels mn mx nlevels).getD (i + 1) 0 -
        (linspaceLevels mn mx nlevels).getD i 0 = (mx - mn) / ((nlevels : ℚ) - 1) := by
  have hq := cast_sub_one_pos nlevels hn
  have hn2 : 2 ≤ nlevels.toNat := by omega
  have hlev := linspaceLevels_of_two_le mn mx nlevels hn
  refine ⟨?_, levels_pairwise_lt mn mx nlevels hlt hn, ?_, ?_,
    linspaceStep_of_two_le mn mx nlevels hn, ?_⟩
  · rw [hlev]; simp
  · rw [hlev, getD_range_map _ _ _ 0 (by omega)]; simp
  · rw [hlev, getD_range_map _ _ _ _ (by omega)]
    have hc : ((nlevels.toNat - 1 : ℕ) : ℚ) = (nlevels : ℚ) - 1 := by
      rw [Nat.cast_sub (by omega), toNat_cast_eq nlevels (by omega)]
      norm_num
    have hne : ((nlevels : ℚ) - 1) ≠ 0 := ne_of_gt hq
    have h3 : ((nlevels : ℚ) - 1) * ((mx - mn) / ((nlevels : ℚ) - 1)) = mx - mn := by
      field_simp
    rw [hc, h3]
    ring
  · intro i hi
    rw [hlev, getD_range_map _ _ _ _ hi, getD_range_map _ _ _ _ (by omega)]
    push_cast
    ring

/-- Witness for levels_spec at mn = 0, mx = 1, nlevels = 3. -/
theorem levels_spec_witness :
    (0 : ℚ) < 1 ∧ (2 : ℤ) ≤ 3 ∧
    (linspaceLevels 0 1 3).length = (3 : ℤ).toNat ∧
    (linspaceLevels 0 1 3).Pairwise (· < ·) ∧
    (linspaceLevels 0 1 3).getD 0 0 = 0 ∧
    (linspaceLevels 0 1 3).getD ((3 : ℤ).toNat - 1) 0 = 1 ∧
    linspaceStep 0 1 3 = some ((1 - 0) / (((3 : ℤ) : ℚ) - 1)) := by
  have h := levels_spec 0 1 3 (by norm_num) (by norm_num)
  exact ⟨by norm_num, by norm_num, h.1, h.2.1, h.2.2.1, h.2.2.2.1, h.2.2.2.2.1⟩

theorem pyTrunc_eq_floor {q : ℚ} (h : 0 ≤ q) : pyTrunc q = ⌊q⌋ := if_pos h

theorem pyTrunc_mul_255_nonneg {c : ℚ} (h0 : 0 ≤ c) : 0 ≤ pyTrunc (c * 255) := by
  rw [pyTrunc_eq_floor (by positivity)]
  exact Int.floor_nonneg.mpr (by positivity)

theorem pyTrunc_mul_255_le {c : ℚ} (h0 : 0 ≤ c) (h1 : c ≤ 1) : pyTrunc (c * 255) ≤ 255 := by
  rw [pyTrunc_eq_floor (by positivity)]
  calc ⌊c * 255⌋ ≤ ⌊(255 : ℚ)⌋ := Int.floor_le_floor (by nlinarith)
    _ = 255 := by norm_num

/-- C2: for every sample index i below nlevels, the exported triplet is
the level paired with each gradient channel sampled at i / (nlevels - 1),
scaled by 255 and truncated (not rounded); each channel lands in
[0, 255], and a gradient value of (1, 0, 0) yields exactly (255, 0, 0). -/
theorem rgb_spec (cmap : Cmap) (levels : List ℚ) (nlevels : ℤ) (hn : 2 ≤ nlevels)
    (hc : ∀ t : ℚ, 0 ≤ (cmap t).1 ∧ (cmap t).1 ≤ 1 ∧ 0 ≤ (cmap t).2.1 ∧
      (cmap t).2.1 ≤ 1 ∧ 0 ≤ (cmap t).2.2 ∧ (cmap t).2.2 ≤ 1) :
    ∃ trips, mkTriplets cmap levels nlevels = Except.ok trips ∧
      trips.length = nlevels.toNat ∧
      ∀ i : ℕ, i < nlevels.toNat →
        trips.getD i (0, 0, 0, 0) =
          (levels.getD i 0,
            pyTrunc ((cmap ((i : ℚ) / ((nlevels : ℚ) - 1))).1 * 255),
            pyTrunc ((cmap ((i : ℚ) / ((nlevels : ℚ) - 1))).2.1 * 255),
            pyTrunc ((cmap ((i : ℚ) / ((nlevels : ℚ) - 1))).2.2 * 255)) ∧
        (0 ≤ (trips.getD i (0, 0, 0, 0)).2.1 ∧ (trips.getD i (0, 0, 0, 0)).2.1 ≤ 255) ∧
        (0 ≤ (trips.getD i (0, 0, 0, 0)).2.2.1 ∧ (trips.getD i (0, 0, 0, 0)).2.2.1 ≤ 255) ∧
        (0 ≤ (trips.getD i (0, 0, 0, 0)).2.2.2 ∧ (trips.getD i (0, 0, 0, 0)).2.2.2 ≤ 255) ∧
        (cmap ((i : ℚ) / ((nlevels : ℚ) - 1)) = (1, 0, 0) →
          (trips.getD i (0, 0, 0, 0)).2 = (255, 0, 0)) := by
  refine ⟨(List.range nlevels.toNat).map (sampleTriplet cmap levels nlevels), ?_, by simp, ?_⟩
  · unfold mkTriplets
    rw [if_neg (by omega)]
  · intro i hi
    rw [getD_range_map _ _ _ _ hi]
    obtain ⟨h1, h2, h3, h4, h5, h6⟩ := hc ((i : ℚ) / ((nlevels : ℚ) - 1))
    refine ⟨rfl, ⟨pyTrunc_mul_255_nonneg h1, pyTrunc_mul_255_le h1 h2⟩,
      ⟨pyTrunc_mul_255_nonneg h3, pyTrunc_mul_255_le h3 h4⟩,
      ⟨pyTrunc_mul_255_nonneg h5, pyTrunc_mul_255_le h5 h6⟩, ?_⟩
    intro hred
    show (pyTrunc _, pyTrunc _, pyTrunc _) = ((255 : ℤ), (0 : ℤ), (0 : ℤ))
    rw [hred]
    norm_num [pyTrunc]

/-- Witness for rgb_spec: the constant red colormap on two levels. -/
theorem rgb_spec_witness :
    (2 : ℤ) ≤ 2 ∧
    ∃ trips, mkTriplets (fun _ => ((1 : ℚ), (0 : ℚ), (0 : ℚ))) [0, 1] 2 = Except.ok trips ∧
      trips.length = (2 : ℤ).toNat := by
  have h := rgb_spec (fun _ => ((1 : ℚ), (0 : ℚ), (0 : ℚ))) [0, 1] 2 (by norm_num)
    (fun t => by norm_num)
  obtain ⟨trips, hok, hlen, _⟩ := h
  exact ⟨by norm_num, trips, hok, hlen⟩

theorem export_ok_of (reg : Registry) (cmap : Cmap) (colormap field units : String)
    (mn mx : ℚ) (nlevels : ℤ) (unique : Bool)
    (hreg : reg colormap = some cmap) (h0 : 0 ≤ nlevels) (h1 : nlevels ≠ 1) :
    export_cmap_as_pal_txt reg colormap field units mn mx nlevels unique =
      Except.ok (fileName colormap field,
        buildLines field units (linspaceStep mn mx nlevels)
          ((List.range nlevels.toNat).map
            (sampleTriplet cmap (linspaceLevels mn mx nlevels) nlevels)) unique) := by
  unfold export_cmap_as_pal_txt prepare linspace mkTriplets
  rw [if_neg (by omega : ¬ nlevels < 0)]
  simp [hreg, h1]

theorem colorLevels_colorMap (trips : List Triplet) :
    colorLevels (trips.map fun t => PalLine.color t.1 t.2.1 t.2.2.1 t.2.2.2) =
      trips.map Prod.fst := by
  induction trips with
  | nil => rfl
  | cons a l ih => simpa [colorLevels, List.filterMap_cons] using ih

theorem colorLevels_buildLines (field units : String) (st : Option ℚ)
    (trips : List Triplet) (unique : Bool) :
    colorLevels (buildLines field units st trips unique) =
      (trips.map Prod.fst).reverse := by
  have hmap := colorLevels_colorMap trips
  unfold colorLevels at hmap
  rw [List.filterMap_map] at hmap
  unfold buildLines colorLevels
  by_cases hf : field = "CC" <;> cases unique <;>
    simp [hf, List.filterMap_append, hmap, List.map_reverse]

theorem trips_map_fst (cmap : Cmap) (mn mx : ℚ) (nlevels : ℤ) (hn : 2 ≤ nlevels) :
    ((List.range nlevels.toNat).map
        (sampleTriplet cmap (linspaceLevels mn mx nlevels) nlevels)).map Prod.fst =
      linspaceLevels mn mx nlevels := by
  rw [List.map_map]
  have hlev := linspaceLevels_of_two_le mn mx nlevels hn
  conv_rhs => rw [hlev]
  refine List.map_congr_left ?_
  intro i hi
  rw [List.mem_range] at hi
  show (sampleTriplet cmap (linspaceLevels mn mx nlevels) nlevels i).1 = _
  unfold sampleTriplet
  rw [hlev, getD_range_map _ _ _ _ hi]

/-- C3: with a registered gradient, min < max and nlevels at least 2, the
export succeeds and its Color lines carry the levels in strictly
decreasing order, the reverse of the order in which the triplets were
generated. -/
theorem colors_descending (reg : Registry) (cmap : Cmap) (colormap field units : String)
    (mn mx : ℚ) (nlevels : ℤ) (unique : Bool)
    (hreg : reg colormap = some cmap) (hlt : mn < mx) (hn : 2 ≤ nlevels) :
    ∃ lines, export_cmap_as_pal_txt reg colormap field units mn mx nlevels unique =
        Except.ok (fileName colormap field, lines) ∧
      colorLevels lines = (linspaceLevels mn mx nlevels).reverse ∧
      (colorLevels lines).Pairwise (· > ·) := by
  refine ⟨_, export_ok_of reg cmap colormap field units mn mx nlevels unique hreg
    (by omega) (by omega), ?_, ?_⟩
  · rw [colorLevels_buildLines, trips_map_fst cmap mn mx nlevels hn]
  · rw [colorLevels_buildLines, trips_map_fst cmap mn mx nlevels hn]
    rw [List.pairwise_reverse]
    exact levels_pairwise_lt mn mx nlevels hlt hn

/-- Witness for colors_descending on the grayscale test registry. -/
theorem colors_descending_witness :
    testRegistry "testmap" = some (fun t => (t, t, t)) ∧ (0 : ℚ) < 2 ∧ (2 : ℤ) ≤ 3 ∧
    ∃ lines, export_cmap_as_pal_txt testRegistry "testmap" "KDP" "DEG" 0 2 3 true =
        Except.ok (fileName "testmap" "KDP", lines) ∧
      colorLevels lines = (linspaceLevels 0 2 3).reverse ∧
      (colorLevels lines).Pairwise (· > ·) :=
  ⟨rfl, by norm_num, by norm_num,
    colors_descending testRegistry (fun t => (t, t, t)) "testmap" "KDP" "DEG" 0 2 3 true
      rfl (by norm_num) (by norm_num)⟩

/-- C10: with a registered gradient, min > max and nlevels at least 2,
the export still succeeds and the Color lines then carry the levels in
strictly increasing order. -/
theorem colors_ascending_on_reversed_range (reg : Registry) (cmap : Cmap)
    (colormap field units : String) (mn mx : ℚ) (nlevels : ℤ) (unique : Bool)
    (hreg : reg colormap = some cmap) (hgt : mx < mn) (hn : 2 ≤ nlevels) :
    ∃ lines, export_cmap_as_pal_txt reg colormap field units mn mx nlevels unique =
        Except.ok (fileName colormap field, lines) ∧
      (colorLevels lines).Pairwise (· < ·) := by
  refine ⟨_, export_ok_of reg cmap colormap field units mn mx nlevels unique hreg
    (by omega) (by omega), ?_⟩
  rw [colorLevels_buildLines, trips_map_fst cmap mn mx nlevels hn]
  rw [List.pairwise_reverse]
  rw [linspaceLevels_of_two_le mn mx nlevels hn]
  have hstneg : (mx - mn) / ((nlevels : ℚ) - 1) < 0 :=
    div_neg_of_neg_of_pos (by linarith) (cast_sub_one_pos nlevels hn)
  refine List.Pairwise.map _ ?_ (List.pairwise_lt_range _)
  intro a b hab
  have hab' : (a : ℚ) < (b : ℚ) := by exact_mod_cast hab
  have := mul_lt_mul_of_neg_right hab' hstneg
  linarith

/-- Witness for colors_ascending_on_reversed_range at an inverted range. -/
theorem colors_ascending_witness :
    testRegistry "testmap" = some (fun t => (t, t, t)) ∧ (0 : ℚ) < 1 ∧ (2 : ℤ) ≤ 2 ∧
    ∃ lines, export_cmap_as_pal_txt testRegistry "testmap" "BR" "DBZ" 1 0 2 true =
        Except.ok (fileName "testmap" "BR", lines) ∧
      (colorLevels lines).Pairwise (· < ·) :=
  ⟨rfl, by norm_num, by norm_num,
    colors_ascending_on_reversed_range testRegistry (fun t => (t, t, t)) "testmap" "BR"
      "DBZ" 1 0 2 true rfl (by norm_num) (by norm_num)⟩

theorem countP_colorMap (p : PalLine → Bool)
    (hc : ∀ t : Triplet, p (PalLine.color t.1 t.2.1 t.2.2.1 t.2.2.2) = false)
    (trips : List Triplet) :
    (trips.map fun t => PalLine.color t.1 t.2.1 t.2.2.1 t.2.2.2).countP p = 0 := by
  rw [List.countP_eq_zero]
  intro a ha
  rw [List.mem_map] at ha
  obtain ⟨t, _, rfl⟩ := ha
  simp [hc t]

theorem countP_scale_buildLines (field units : String) (st : Option ℚ)
    (trips : List Triplet) (unique : Bool) :
    (buildLines field units st trips unique).countP isScale =
      if field = "CC" then 1 else 0 := by
  unfold buildLines
  have hcm := countP_colorMap isScale (fun t => rfl) trips.reverse
  by_cases hf : field = "CC" <;> cases unique <;>
    simp [hf, List.countP_append, List.countP_cons, hcm, isScale]

theorem countP_step_buildLines (field units : String) (st : Option ℚ)
    (trips : List Triplet) (unique : Bool) :
    (buildLines field units st trips unique).countP isStepLine =
      if field = "CC" then 0 else 1 := by
  unfold buildLines
  have hcm := countP_colorMap isStepLine (fun t => rfl) trips.reverse
  by_cases hf : field = "CC" <;> cases unique <;>
    simp [hf, List.countP_append, List.countP_cons, hcm, isStepLine]

/-- C4: every successful export emits exactly one of the Scale: 100 and
Step: lines, never both; the Scale line appears exactly when the field
is the literal CC, and otherwise the single Step line carries the
linspace step value. -/
theorem header_scale_step (reg : Registry) (cmap : Cmap) (colormap field units : String)
    (mn mx : ℚ) (nlevels : ℤ) (unique : Bool)
    (hreg : reg colormap = some cmap) (h0 : 0 ≤ nlevels) (h1 : nlevels ≠ 1) :
    ∃ lines, export_cmap_as_pal_txt reg colormap field units mn mx nlevels unique =
        Except.ok (fileName colormap field, lines) ∧
      (field = "CC" → lines.countP isScale = 1 ∧ lines.countP isStepLine = 0) ∧
      (field ≠ "CC" → lines.countP isScale = 0 ∧ lines.countP isStepLine = 1 ∧
        PalLine.step (linspaceStep mn mx nlevels) ∈ lines) := by
  refine ⟨_, export_ok_of reg cmap colormap field units mn mx nlevels unique hreg h0 h1,
    ?_, ?_⟩
  · intro hf
    rw [countP_scale_buildLines, countP_step_buildLines, if_pos hf, if_pos hf]
    exact ⟨rfl, rfl⟩
  · intro hf
    rw [countP_scale_buildLines, countP_step_buildLines, if_neg hf, if_neg hf]
    refine ⟨rfl, rfl, ?_⟩
    unfold buildLines
    rw [if_neg hf]
    simp

/-- Witness for header_scale_step, once with field CC and once with ZDR. -/
theorem header_scale_step_witness :
    (∃ lines, export_cmap_as_pal_txt testRegistry "testmap" "CC" "Unitless" 0 2 3 true =
        Except.ok (fileName "testmap" "CC", lines) ∧
      lines.countP isScale = 1 ∧ lines.countP isStepLine = 0) ∧
    (∃ lines, export_cmap_as_pal_txt testRegistry "testmap" "ZDR" "DB" 0 2 3 true =
        Except.ok (fileName "testmap" "ZDR", lines) ∧
      lines.countP isScale = 0 ∧ lines.countP isStepLine = 1 ∧
      PalLine.step (linspaceStep 0 2 3) ∈ lines) := by
  obtain ⟨l₁, h₁, hcc, -⟩ := header_scale_step testRegistry (fun t => (t, t, t))
    "testmap" "CC" "Unitless" 0 2 3 true rfl (by norm_num) (by norm_num)
  obtain ⟨l₂, h₂, -, hzdr⟩ := header_scale_step testRegistry (fun t => (t, t, t))
    "testmap" "ZDR" "DB" 0 2 3 true rfl (by norm_num) (by norm_num)
  exact ⟨⟨l₁, h₁, hcc rfl⟩, ⟨l₂, h₂, hzdr (by decide)⟩⟩

theorem countP_unique_buildLines (field units : String) (st : Option ℚ)
    (trips : List Triplet) (unique : Bool) :
    (buildLines field units st trips unique).countP isUniqueLine =
      if unique then 1 else 0 := by
  unfold buildLines
  have hcm := countP_colorMap isUniqueLine (fun t => rfl) trips.reverse
  by_cases hf : field = "CC" <;> cases unique <;>
    simp [hf, List.countP_append, List.countP_cons, hcm, isUniqueLine]

theorem getLast_unique_buildLines (field units : String) (st : Option ℚ)
    (trips : List Triplet) :
    (buildLines field units st trips true).getLast? = some PalLine.unique := by
  have h : buildLines field units st trips true =
      ([PalLine.product field, PalLine.units units]
        ++ ((if field = "CC" then [PalLine.scale] else [PalLine.step st])
        ++ ([PalLine.blank]
        ++ trips.reverse.map (fun t => PalLine.color t.1 t.2.1 t.2.2.1 t.2.2.2))))
        ++ [PalLine.unique] := by
    unfold buildLines
    simp
  rw [h, List.getLast?_concat]

/-- C5: with the unique flag set, the output carries exactly one Unique
sentinel line, it is the final line, and its text is the literal from
the source; with the flag clear, no Unique line appears. -/
theorem sentinel_spec (reg : Registry) (cmap : Cmap) (colormap field units : String)
    (mn mx : ℚ) (nlevels : ℤ)
    (hreg : reg colormap = some cmap) (h0 : 0 ≤ nlevels) (h1 : nlevels ≠ 1) :
    render PalLine.unique = "Unique: 800 \"RF\"    119   0  125" ∧
    (∃ lines, export_cmap_as_pal_txt reg colormap field units mn mx nlevels true =
        Except.ok (fileName colormap field, lines) ∧
      lines.countP isUniqueLine = 1 ∧ lines.getLast? = some PalLine.unique) ∧
    (∃ lines, export_cmap_as_pal_txt reg colormap field units mn mx nlevels false =
        Except.ok (fileName colormap field, lines) ∧
      lines.countP isUniqueLine = 0) := by
  refine ⟨rfl,
    ⟨_, export_ok_of reg cmap colormap field units mn mx nlevels true hreg h0 h1, ?_, ?_⟩,
    ⟨_, export_ok_of reg cmap colormap field units mn mx nlevels false hreg h0 h1, ?_⟩⟩
  · rw [countP_unique_buildLines]
    rfl
  · exact getLast_unique_buildLines field units _ _
  · rw [countP_unique_buildLines]
    rfl

/-- Witness for sentinel_spec on the grayscale test registry. -/
theorem sentinel_spec_witness :
    render PalLine.unique = "Unique: 800 \"RF\"    119   0  125" ∧
    (∃ lines, export_cmap_as_pal_txt testRegistry "testmap" "SW" "KTS" 0 3 4 true =
        Except.ok (fileName "testmap" "SW", lines) ∧
      lines.countP isUniqueLine = 1 ∧ lines.getLast? = some PalLine.unique) ∧
    (∃ lines, export_cmap_as_pal_txt testRegistry "testmap" "SW" "KTS" 0 3 4 false =
        Except.ok (fileName "testmap" "SW", lines) ∧
      lines.countP isUniqueLine = 0) :=
  sentinel_spec testRegistry (fun t => (t, t, t)) "testmap" "SW" "KTS" 0 3 4
    rfl (by norm_num) (by norm_num)

/-- C6: the end-to-end example: exporting the linear grayscale gradient
testmap for field ZDR, units DB, range -1 to 5 with 7 levels and the
sentinel flag set writes ./testmap_ZDR.pal with header Product: ZDR,
Units:   DB, Step: 1.0, a blank line, the seven Color lines with levels
5, 4, 3, 2, 1, 0, -1 in that order carrying the truncated grayscale
triplets, and the trailing sentinel line. -/
theorem end_to_end_example :
    export_cmap_as_pal_txt testRegistry "testmap" "ZDR" "DB" (-1) 5 7 true =
      Except.ok ("./testmap_ZDR.pal",
        [PalLine.product "ZDR", PalLine.units "DB", PalLine.step (some 1), PalLine.blank,
         PalLine.color 5 255 255 255, PalLine.color 4 212 212 212,
         PalLine.color 3 170 170 170, PalLine.color 2 127 127 127,
         PalLine.color 1 85 85 85, PalLine.color 0 42 42 42,
         PalLine.color (-1) 0 0 0, PalLine.unique]) ∧
    render (PalLine.step (some 1)) = "Step: 1.0" ∧
    render (PalLine.product "ZDR") = "Product: ZDR" ∧
    render (PalLine.units "DB") = "Units:   DB" ∧
    render PalLine.unique = "Unique: 800 \"RF\"    119   0  125" := by
  refine ⟨?_, rfl, rfl, rfl, rfl⟩
  rw [export_ok_of testRegistry (fun t => (t, t, t)) "testmap" "ZDR" "DB" (-1) 5 7 true
    rfl (by norm_num) (by norm_num)]
  rw [Except.ok.injEq, Prod.mk.injEq]
  refine ⟨by rfl, ?_⟩
  unfold buildLines
  rw [if_neg (by decide : ¬ "ZDR" = "CC")]
  simp only [show (7 : ℤ).toNat = 7 from rfl, List.range_succ, List.range_zero]
  norm_num [linspaceStep, linspaceLevels, sampleTriplet, pyTrunc,
    Function.comp_def, List.range_succ]

/-- Counterexample to C7: with equal bounds (min = max = 0) the code does
not fail at all: np.linspace accepts the degenerate range and the file is
written, so no InvalidRange-style error exists in the code. -/
theorem no_range_validation_cex :
    export_cmap_as_pal_txt testRegistry "testmap" "BR" "DBZ" 0 0 2 true =
      Except.ok ("./testmap_BR.pal",
        [PalLine.product "BR", PalLine.units "DBZ", PalLine.step (some 0), PalLine.blank,
         PalLine.color 0 255 255 255, PalLine.color 0 0 0 0, PalLine.unique]) := by
  rw [export_ok_of testRegistry (fun t => (t, t, t)) "testmap" "BR" "DBZ" 0 0 2 true
    rfl (by norm_num) (by norm_num)]
  rw [Except.ok.injEq, Prod.mk.injEq]
  refine ⟨by rfl, ?_⟩
  unfold buildLines
  rw [if_neg (by decide : ¬ "BR" = "CC")]
  simp only [show (2 : ℤ).toNat = 2 from rfl, List.range_succ, List.range_zero]
  norm_num [linspaceStep, linspaceLevels, sampleTriplet, pyTrunc,
    Function.comp_def, List.range_succ]

/-- C7 as amended: the failures the code actually has.  A negative
nlevels raises ValueError inside np.linspace before anything else; an
unregistered gradient name raises KeyError (when nlevels is nonnegative,
since the linspace call runs first); nlevels = 1 raises
ZeroDivisionError from i/(nlevels-1) when the gradient is registered;
and every other input - including min >= max and nlevels = 0 - succeeds:
the code performs no range or level-count validation of its own. -/
theorem failure_characterization (reg : Registry) (colormap field units : String)
    (mn mx : ℚ) (nlevels : ℤ) (unique : Bool) :
    (nlevels < 0 →
      export_cmap_as_pal_txt reg colormap field units mn mx nlevels unique =
        Except.error PyError.valueError) ∧
    (0 ≤ nlevels → reg colormap = none →
      export_cmap_as_pal_txt reg colormap field units mn mx nlevels unique =
        Except.error PyError.keyError) ∧
    (∀ cmap : Cmap, reg colormap = some cmap → nlevels = 1 →
      export_cmap_as_pal_txt reg colormap field units mn mx nlevels unique =
        Except.error PyError.zeroDivisionError) ∧
    (∀ cmap : Cmap, reg colormap = some cmap → 0 ≤ nlevels → nlevels ≠ 1 →
      ∃ out, export_cmap_as_pal_txt reg colormap field units mn mx nlevels unique =
        Except.ok out) := by
  refine ⟨?_, ?_, ?_, ?_⟩
  · intro hneg
    unfold export_cmap_as_pal_txt prepare linspace
    rw [if_pos hneg]
  · intro h0 hnone
    unfold export_cmap_as_pal_txt prepare linspace
    rw [if_neg (by omega : ¬ nlevels < 0)]
    simp [hnone]
  · intro cmap hreg h1
    unfold export_cmap_as_pal_txt prepare linspace mkTriplets
    rw [if_neg (by omega : ¬ nlevels < 0)]
    simp [hreg, h1]
  · intro cmap hreg h0 h1
    exact ⟨_, export_ok_of reg cmap colormap field units mn mx nlevels unique hreg h0 h1⟩

/-- Witness for failure_characterization: each failure mode and the
no-validation success at a concrete input. -/
theorem failure_characterization_witness :
    export_cmap_as_pal_txt testRegistry "testmap" "BR" "DBZ" 0 1 (-3) true =
      Except.error PyError.valueError ∧
    export_cmap_as_pal_txt testRegistry "nope" "BR" "DBZ" 0 1 5 true =
      Except.error PyError.keyError ∧
    export_cmap_as_pal_txt testRegistry "testmap" "BR" "DBZ" 0 1 1 true =
      Except.error PyError.zeroDivisionError ∧
    ∃ out, export_cmap_as_pal_txt testRegistry "testmap" "BR" "DBZ" 0 1 0 true =
      Except.ok out := by
  refine ⟨?_, ?_, ?_, ?_⟩
  · exact (failure_characterization testRegistry "testmap" "BR" "DBZ" 0 1 (-3) true).1
      (by norm_num)
  · exact (failure_characterization testRegistry "nope" "BR" "DBZ" 0 1 5 true).2.1
      (by norm_num) rfl
  · exact (failure_characterization testRegistry "testmap" "BR" "DBZ" 0 1 1 true).2.2.1
      (fun t => (t, t, t)) rfl rfl
  · exact (failure_characterization testRegistry "testmap" "BR" "DBZ" 0 1 0 true).2.2.2
      (fun t => (t, t, t)) rfl (by norm_num) (by norm_num)

/-- C8: every failing run raises its exception before the output file is
opened (the three failure points are all in lines 26-32 of the source,
the open() is on line 34), so a failing export performs no file-system
event at all: nothing is created, truncated or modified. -/
theorem no_partial_write (reg : Registry) (colormap field units : String)
    (mn mx : ℚ) (nlevels : ℤ) (unique : Bool) :
    ∀ e : PyError,
      (exportTrace reg colormap field units mn mx nlevels unique).2 = some e →
      (exportTrace reg colormap field units mn mx nlevels unique).1 = [] := by
  intro e he
  unfold exportTrace at he ⊢
  cases hp : prepare reg colormap mn mx nlevels with
  | error e' => rfl
  | ok v => rw [hp] at he; simp at he

/-- Witness for no_partial_write at an unregistered gradient name. -/
theorem no_partial_write_witness :
    (exportTrace testRegistry "nope" "BR" "DBZ" 0 1 5 true).2 = some PyError.keyError ∧
    (exportTrace testRegistry "nope" "BR" "DBZ" 0 1 5 true).1 = [] :=
  ⟨by decide,
    no_partial_write testRegistry "nope" "BR" "DBZ" 0 1 5 true PyError.keyError (by decide)⟩

/-- C9: the export is deterministic: two runs with identical arguments
over the same registry that both write a file write the same path and
byte-identical contents. -/
theorem deterministic_output (reg : Registry) (colormap field units : String)
    (mn mx : ℚ) (nlevels : ℤ) (unique : Bool)
    (p₁ p₂ : String) (ls₁ ls₂ : List PalLine)
    (h₁ : export_cmap_as_pal_txt reg colormap field units mn mx nlevels unique =
      Except.ok (p₁, ls₁))
    (h₂ : export_cmap_as_pal_txt reg colormap field units mn mx nlevels unique =
      Except.ok (p₂, ls₂)) :
    p₁ = p₂ ∧ ls₁.map render = ls₂.map render ∧ ls₁ = ls₂ := by
  rw [h₁] at h₂
  injection h₂ with h
  injection h with hp hl
  exact ⟨hp, by rw [hl], hl⟩

/-- Witness for deterministic_output at a concrete successful export. -/
theorem deterministic_output_witness :
    "./testmap_KDP.pal" = "./testmap_KDP.pal" ∧
    ([PalLine.product "KDP", PalLine.units "DEG", PalLine.step (some 1), PalLine.blank,
      PalLine.color 2 255 255 255, PalLine.color 1 127 127 127,
      PalLine.color 0 0 0 0, PalLine.unique].map render) =
    ([PalLine.product "KDP", PalLine.units "DEG", PalLine.step (some 1), PalLine.blank,
      PalLine.color 2 255 255 255, PalLine.color 1 127 127 127,
      PalLine.color 0 0 0 0, PalLine.unique].map render) ∧
    [PalLine.product "KDP", PalLine.units "DEG", PalLine.step (some 1), PalLine.blank,
      PalLine.color 2 255 255 255, PalLine.color 1 127 127 127,
      PalLine.color 0 0 0 0, PalLine.unique] =
    [PalLine.product "KDP", PalLine.units "DEG", PalLine.step (some 1), PalLine.blank,
      PalLine.color 2 255 255 255, PalLine.color 1 127 127 127,
      PalLine.color 0 0 0 0, PalLine.unique] := by
  have hok : export_cmap_as_pal_txt testRegistry "testmap" "KDP" "DEG" 0 2 3 true =
      Except.ok ("./testmap_KDP.pal",
        [PalLine.product "KDP", PalLine.units "DEG", PalLine.step (some 1), PalLine.blank,
         PalLine.color 2 255 255 255, PalLine.color 1 127 127 127,
         PalLine.color 0 0 0 0, PalLine.unique]) := by
    rw [export_ok_of testRegistry (fun t => (t, t, t)) "testmap" "KDP" "DEG" 0 2 3 true
      rfl (by norm_num) (by norm_num)]
    rw [Except.ok.injEq, Prod.mk.injEq]
    refine ⟨by rfl, ?_⟩
    unfold buildLines
    rw [if_neg (by decide : ¬ "KDP" = "CC")]
    simp only [show (3 : ℤ).toNat = 3 from rfl, List.range_succ, List.range_zero]
    norm_num [linspaceStep, linspaceLevels, sampleTriplet, pyTrunc,
      Function.comp_def, List.range_succ]
  exact deterministic_output testRegistry "testmap" "KDP" "DEG" 0 2 3 true
    "./testmap_KDP.pal" "./testmap_KDP.pal" _ _ hok hok

end ColormapToPal
